import Mathlib

/-!
Verification of the manufacturing-insights analytics core.

This file shallowly embeds the analytics routines of the repository
(anomaly_detection.py and prediction_models.py) over exact rational
arithmetic and proves or refutes the frozen specification claims.

Modelling conventions:
- A pandas float cell is modelled by PVal: a rational, or one of the
  three special values positive infinity, negative infinity, NaN, so
  that unguarded Series division by zero behaves as in pandas.
- The Python random module is an external collaborator; it is modelled
  by an explicit deterministic generator state threaded through the
  functions that consume randomness.
- The sklearn StandardScaler plus IsolationForest pipeline is an
  external collaborator; detect_anomalies takes it as an explicit
  fitPredict argument returning either a fit error or a per-row
  outlier labelling.
-/

/-- Python int() applied to a rational: truncation toward zero. -/
def qtrunc (q : ℚ) : ℤ := q.num.tdiv (q.den : ℤ)

/-- Clamp an integer into the interval [lo, hi]. -/
def clampZ (lo hi x : ℤ) : ℤ := max lo (min hi x)

/-- Arithmetic mean of a list of rationals (0 on the empty list; all
uses are guarded to nonempty lists). -/
def qmean (xs : List ℚ) : ℚ := xs.sum / (xs.length : ℚ)

/-- Maximum of a list of rationals (0 on the empty list; all uses are
guarded to nonempty lists). -/
def qmax : List ℚ → ℚ
  | [] => 0
  | x :: xs => xs.foldl max x

/-- Insert an element into a list, in front of the first element for
which le already holds: the inner step of a stable insertion sort. -/
def insertLe (le : α → α → Bool) (x : α) : List α → List α
  | [] => [x]
  | y :: ys => if le x y then x :: y :: ys else y :: insertLe le x ys

/-- Stable insertion sort by a boolean comparison. -/
def isortBy (le : α → α → Bool) : List α → List α
  | [] => []
  | x :: xs => insertLe le x (isortBy le xs)

/-- Deduplicate a list keeping the first occurrence of each element. -/
def dedupFirst : List String → List String
  | [] => []
  | x :: xs => x :: (dedupFirst xs).filter (fun y => y != x)

/-- A pandas float cell: finite rational, infinity, or NaN. -/
inductive PVal where
  | finite : ℚ → PVal
  | posInf : PVal
  | negInf : PVal
  | nan : PVal
deriving DecidableEq, Repr

/-- Pandas Series division of two cells, numerator a over denominator
b: zero denominators give NaN (0/0) or a signed infinity, never an
exception. -/
def pdDiv (a b : ℚ) : PVal :=
  if b = 0 then
    if a = 0 then PVal.nan else if 0 < a then PVal.posInf else PVal.negInf
  else PVal.finite (a / b)

/-- IEEE-style addition on pandas cells. -/
def pdAdd : PVal → PVal → PVal
  | PVal.nan, _ => PVal.nan
  | _, PVal.nan => PVal.nan
  | PVal.posInf, PVal.negInf => PVal.nan
  | PVal.negInf, PVal.posInf => PVal.nan
  | PVal.posInf, _ => PVal.posInf
  | _, PVal.posInf => PVal.posInf
  | PVal.negInf, _ => PVal.negInf
  | _, PVal.negInf => PVal.negInf
  | PVal.finite a, PVal.finite b => PVal.finite (a + b)

/-- Sum of a list of pandas cells. -/
def pdSum : List PVal → PVal
  | [] => PVal.finite 0
  | x :: xs => pdAdd x (pdSum xs)

/-- Divide a pandas cell by a positive natural number. -/
def pdDivNat (x : PVal) (n : ℕ) : PVal :=
  match x with
  | PVal.finite q => PVal.finite (q / (n : ℚ))
  | y => y

/-- Pandas Series.mean with its default skipna=True: NaN entries are
dropped, the rest are summed and divided by their count; the mean of
nothing is NaN, and an infinity among the kept entries propagates. -/
def pdMean (xs : List PVal) : PVal :=
  let ys := xs.filter (fun v => v != PVal.nan)
  if ys.isEmpty then PVal.nan else pdDivNat (pdSum ys) ys.length

/-- Multiplication of a pandas cell by a positive rational constant. -/
def pdScale (c : ℚ) : PVal → PVal
  | PVal.finite a => PVal.finite (c * a)
  | PVal.posInf => PVal.posInf
  | PVal.negInf => PVal.negInf
  | PVal.nan => PVal.nan

/-- Addition of a finite rational constant to a pandas cell. -/
def pdAddC (x : PVal) (c : ℚ) : PVal :=
  match x with
  | PVal.finite a => PVal.finite (a + c)
  | y => y

/-- Python comparison q > x of a plain number against a pandas cell;
any comparison with NaN is false. -/
def qGtP (q : ℚ) : PVal → Bool
  | PVal.finite a => decide (a < q)
  | PVal.posInf => false
  | PVal.negInf => true
  | PVal.nan => false

/-- Python comparison q < x of a plain number against a pandas cell. -/
def qLtP (q : ℚ) : PVal → Bool
  | PVal.finite a => decide (q < a)
  | PVal.posInf => true
  | PVal.negInf => false
  | PVal.nan => false

/-- Python comparison x > q of a pandas cell against a plain number. -/
def pGtQ : PVal → ℚ → Bool
  | PVal.finite a, q => decide (q < a)
  | PVal.posInf, _ => true
  | PVal.negInf, _ => false
  | PVal.nan, _ => false

/-- Python comparison x >= q of a pandas cell against a plain number. -/
def pGeQ : PVal → ℚ → Bool
  | PVal.finite a, q => decide (q ≤ a)
  | PVal.posInf, _ => true
  | PVal.negInf, _ => false
  | PVal.nan, _ => false

/-- Extract the rational of a finite pandas cell (0 on the special
values; every use is guarded to the finite case). -/
def pvalToQ : PVal → ℚ
  | PVal.finite q => q
  | _ => 0

/-- Modelled from the spec: the state of the Python random module
(an external collaborator), as an explicit deterministic generator
so that randomness is seedable and calls thread the state. -/
structure RNG where
  state : ℕ
deriving DecidableEq, Repr

/-- Advance the modelled generator (a linear congruential step). -/
def rngNext (r : RNG) : RNG :=
  ⟨(r.state * 1103515245 + 12345) % 2147483648⟩

/-- Modelled from the spec: random.randint lo hi returns a uniform
integer in [lo, hi] and advances the generator state. -/
def randint (lo hi : ℕ) (r : RNG) : ℕ × RNG :=
  (lo + r.state % (hi - lo + 1), rngNext r)

/-- Modelled from the spec: random.choice over a nonempty list of
naturals returns one of its elements and advances the state. -/
def randchoice (xs : List ℕ) (d : ℕ) (r : RNG) : ℕ × RNG :=
  (xs.getD (r.state % xs.length) d, rngNext r)

/-- One shift record (one row of the manufacturing table). The
dateTime field models the instant parsed from the Date and Timestamp
columns, used only as the chronological sort key. -/
structure ShiftRecord where
  machine_id : String
  date : String
  shift : String
  target_output : ℚ
  actual_output : ℚ
  cumulative_output : ℚ
  defects : ℚ
  downtime_minutes : ℚ
  dateTime : ℕ
deriving DecidableEq, Inhabited, Repr

/-- The manufacturing table: its rows together with the list of column
names actually present (needed to model the missing-column check). -/
structure Table where
  cols : List String
  rows : List ShiftRecord
deriving Inhabited

/-- The five numeric columns required by prepare_anomaly_features. -/
def requiredCols : List String :=
  ["Target_Output", "Actual_Output", "Cumulative_Output", "Defects", "Downtime_Minutes"]

/-- Whether every required numeric column is present in the table. -/
def hasRequiredCols (df : Table) : Bool :=
  requiredCols.all (fun c => df.cols.contains c)

/-- All records of one machine, in table order: df filtered on
Machine_ID. -/
def machineRows (rows : List ShiftRecord) (mid : String) : List ShiftRecord :=
  rows.filter (fun r => r.machine_id == mid)

/-- Sort records chronologically by the parsed DateTime key
(sort_values on the DateTime column). -/
def sortByTime (rows : List ShiftRecord) : List ShiftRecord :=
  isortBy (fun a b => Nat.ble a.dateTime b.dateTime) rows

/-- Machine ids in the order pandas groupby iterates them: distinct
keys sorted ascending. -/
def sortedUniqueIds (rows : List ShiftRecord) : List String :=
  isortBy (fun a b => decide (a ≤ b)) (dedupFirst (rows.map (fun r => r.machine_id)))

/-- One derived feature row of the Feature Deriver
(prepare_anomaly_features): the three cleaned ratios, the machine id,
and the back-reference index into the original table. -/
structure FeatureRow where
  efficiency : PVal
  defect_rate : PVal
  downtime_per_unit : PVal
  machine_id : String
  index : ℕ
deriving DecidableEq, Repr

/-- The fillna(0) followed by replace of both infinities with 0 that
prepare_anomaly_features applies to every derived ratio column. -/
def fillnaReplaceInf : PVal → PVal
  | PVal.finite q => PVal.finite q
  | _ => PVal.finite 0

/-- Build the derived feature row of one record, exactly as the body
of the per-group loop of prepare_anomaly_features does. -/
def mkFeatureRow (mid : String) (idx : ℕ) (r : ShiftRecord) : FeatureRow :=
  { efficiency := fillnaReplaceInf (pdDiv r.actual_output r.target_output)
    defect_rate := fillnaReplaceInf (pdDiv r.defects r.actual_output)
    downtime_per_unit := fillnaReplaceInf (pdDiv r.downtime_minutes r.actual_output)
    machine_id := mid
    index := idx }

/-- prepare_anomaly_features: none when the table is empty, has fewer
than 5 rows, or misses a required column; otherwise the per-machine
groups with at least 3 records are turned into feature rows (none when
every group is smaller). -/
def prepare_anomaly_features (df : Table) : Option (List FeatureRow) :=
  if df.rows.isEmpty || decide (df.rows.length < 5) then none
  else if !hasRequiredCols df then none
  else
    let indexed := df.rows.enum
    let groups := (sortedUniqueIds df.rows).map
      (fun mid => (mid, indexed.filter (fun p => p.2.machine_id == mid)))
    let kept := groups.filter (fun g => decide (3 ≤ g.2.length))
    let all_features := kept.map (fun g => g.2.map (fun p => mkFeatureRow g.1 p.1 p.2))
    if all_features.isEmpty then none
    else some all_features.flatten

/-- The attributed reason of determine_anomaly_reason, one constructor
per message together with the values interpolated into it. -/
inductive AnomalyReason where
  | unusualDowntime (minutes : ℚ) (avg : PVal)
  | efficiencyDropped (eff : ℚ) (avg : PVal)
  | highDefectRate (rate : ℚ) (avg : PVal)
  | belowTarget (actual target : ℚ)
  | genericPattern
deriving DecidableEq, Repr

/-- The per-machine average efficiency used by determine_anomaly_reason
and predict_production_targets: an unguarded pandas Series division
followed by mean, with no flooring of zero-denominator ratios. -/
def machineAvgEfficiency (rows : List ShiftRecord) (mid : String) : PVal :=
  pdMean ((machineRows rows mid).map (fun r => pdDiv r.actual_output r.target_output))

/-- The per-machine average defect rate used by
determine_anomaly_reason, likewise unguarded. -/
def machineAvgDefectRate (rows : List ShiftRecord) (mid : String) : PVal :=
  pdMean ((machineRows rows mid).map (fun r => pdDiv r.defects r.actual_output))

/-- The per-machine average downtime used by determine_anomaly_reason. -/
def machineAvgDowntime (rows : List ShiftRecord) (mid : String) : PVal :=
  pdMean ((machineRows rows mid).map (fun r => PVal.finite r.downtime_minutes))

/-- determine_anomaly_reason: the fixed-priority attribution chain. -/
def determine_anomaly_reason (record : ShiftRecord) (rows : List ShiftRecord) :
    AnomalyReason :=
  let efficiency : ℚ :=
    if 0 < record.target_output then record.actual_output / record.target_output else 0
  let defect_rate : ℚ :=
    if 0 < record.actual_output then record.defects / record.actual_output else 0
  let avg_efficiency := machineAvgEfficiency rows record.machine_id
  let avg_defect_rate := machineAvgDefectRate rows record.machine_id
  let avg_downtime := machineAvgDowntime rows record.machine_id
  if qGtP record.downtime_minutes (pdScale 2 avg_downtime)
      && decide (10 < record.downtime_minutes) then
    AnomalyReason.unusualDowntime record.downtime_minutes avg_downtime
  else if qLtP efficiency (pdScale (7/10) avg_efficiency) && pGtQ avg_efficiency 0 then
    AnomalyReason.efficiencyDropped efficiency avg_efficiency
  else if qGtP defect_rate (pdAddC (pdScale (3/2) avg_defect_rate) (1/20))
      && decide ((1 : ℚ)/10 < defect_rate) then
    AnomalyReason.highDefectRate defect_rate avg_defect_rate
  else if decide (record.actual_output < record.target_output * (3/5))
      && decide (0 < record.target_output) then
    AnomalyReason.belowTarget record.actual_output record.target_output
  else AnomalyReason.genericPattern

/-- One anomaly produced by detect_anomalies. -/
structure Anomaly where
  machine_id : String
  date : String
  shift : String
  message : AnomalyReason
  confidence : ℕ
deriving DecidableEq, Repr

/-- The scaled feature matrix handed to the outlier detector for one
machine: the three cleaned (hence finite) ratio columns of its group. -/
def matrixFor (fdf : List FeatureRow) (mid : String) : List (ℚ × ℚ × ℚ) :=
  ((fdf.filter (fun fr => fr.machine_id == mid)).map
    (fun fr => (pvalToQ fr.efficiency, pvalToQ fr.defect_rate, pvalToQ fr.downtime_per_unit)))

/-- Resolve a list of flagged indices back to their records, attribute
a reason, and draw the placeholder confidence for each: the inner loop
of detect_anomalies. -/
def buildAnomalies (rows : List ShiftRecord) (mid : String) :
    List ℕ → RNG → List Anomaly × RNG
  | [], rng => ([], rng)
  | i :: is, rng =>
      let r := rows.getD i default
      let reason := determine_anomaly_reason r rows
      let (c, rng1) := randint 70 95 rng
      let (rest, rng2) := buildAnomalies rows mid is rng1
      ({ machine_id := mid, date := r.date, shift := r.shift,
         message := reason, confidence := c } :: rest, rng2)

/-- One iteration of the per-machine loop of detect_anomalies: skip
groups with fewer than 5 feature rows, hand the feature matrix to the
external scaler-plus-isolation-forest pipeline (the fitPredict
argument), and on a fit error skip the machine, returning nothing and
leaving the generator untouched. -/
def perMachine (fitPredict : List (ℚ × ℚ × ℚ) → Except String (List Bool))
    (fdf : List FeatureRow) (rows : List ShiftRecord) (mid : String) (rng : RNG) :
    List Anomaly × RNG :=
  let grp := fdf.filter (fun fr => fr.machine_id == mid)
  if decide (grp.length < 5) then ([], rng)
  else
    match fitPredict (matrixFor fdf mid) with
    | Except.error _ => ([], rng)
    | Except.ok preds =>
        let outliers := ((grp.zip preds).filter (fun p => p.2)).map (fun p => p.1.index)
        buildAnomalies rows mid outliers rng

/-- Fold of perMachine over the distinct machine ids of the feature
table, threading the generator state and concatenating the anomalies. -/
def runMachines (fitPredict : List (ℚ × ℚ × ℚ) → Except String (List Bool))
    (fdf : List FeatureRow) (rows : List ShiftRecord) :
    List String → RNG → List Anomaly × RNG
  | [], rng => ([], rng)
  | mid :: rest, rng =>
      let p := perMachine fitPredict fdf rows mid rng
      let q := runMachines fitPredict fdf rows rest p.2
      (p.1 ++ q.1, q.2)

/-- detect_anomalies: derive features, then run the per-machine outlier
detection, returning the empty list when the deriver signalled not
enough data. -/
def detect_anomalies (fitPredict : List (ℚ × ℚ × ℚ) → Except String (List Bool))
    (df : Table) (rng : RNG) : List Anomaly × RNG :=
  match prepare_anomaly_features df with
  | none => ([], rng)
  | some fdf =>
      if fdf.isEmpty then ([], rng)
      else runMachines fitPredict fdf df.rows
        (dedupFirst (fdf.map (fun fr => fr.machine_id))) rng

/-- The single feature row computed by prepare_machine_features. The
model-file handling of the source (joblib load or retrain of a dummy
RandomForestClassifier) touches only the filesystem and never feeds
the heuristic score, so it is not part of the embedding. -/
structure MachineFeatures where
  avg_downtime_24h : ℚ
  max_downtime_24h : ℚ
  downtime_frequency : ℕ
  production_efficiency : ℚ
  defect_rate : ℚ
  operation_hours : ℕ
  has_recent_downtime : Bool
deriving DecidableEq, Repr

/-- prepare_machine_features: filter the table to one machine, sort
chronologically, and aggregate; none when the machine has no records. -/
def prepare_machine_features (rows : List ShiftRecord) (mid : String) :
    Option MachineFeatures :=
  let m := machineRows rows mid
  if m.isEmpty then none
  else
    let s := sortByTime m
    some
      { avg_downtime_24h := qmean (s.map (fun r => r.downtime_minutes))
        max_downtime_24h := qmax (s.map (fun r => r.downtime_minutes))
        downtime_frequency := (s.filter (fun r => decide (0 < r.downtime_minutes))).length
        production_efficiency :=
          if 0 < (s.map (fun r => r.target_output)).sum then
            (s.map (fun r => r.actual_output)).sum / (s.map (fun r => r.target_output)).sum
          else 1
        defect_rate :=
          if 0 < (s.map (fun r => r.actual_output)).sum then
            (s.map (fun r => r.defects)).sum / (s.map (fun r => r.actual_output)).sum
          else 0
        operation_hours := s.length
        has_recent_downtime :=
          (s.drop (s.length - 5)).any (fun r => decide (0 < r.downtime_minutes)) }

/-- predict_downtime: the additive heuristic risk score and forecast
horizon for one machine, with the random fallback for machines that
have no records. -/
def predict_downtime (rows : List ShiftRecord) (mid : String) (rng : RNG) :
    (ℤ × ℕ) × RNG :=
  match prepare_machine_features rows mid with
  | none =>
      let (s, rng1) := randint 10 90 rng
      let (h, rng2) := randchoice [2, 4, 8, 12, 24] 2 rng1
      (((s : ℤ), h), rng2)
  | some f =>
      let score : ℤ :=
        min ((f.downtime_frequency : ℤ) * 10) 30
        + (if f.has_recent_downtime then 20 else 0)
        + max 0 (min 40 (qtrunc ((1 - f.production_efficiency) * 100)))
        + min (qtrunc (f.defect_rate * 100)) 10
      let final_score := min score 100
      let n := (machineRows rows mid).length
      let hours : ℕ := if 20 < n then 24 else if 10 < n then 12 else 4
      ((final_score, hours), rng)

/-- The record returned by predict_production_targets. -/
structure TargetResult where
  optimal_target : Option ℤ
  confidence : ℕ
  message : String
deriving DecidableEq, Repr

/-- predict_production_targets: the three-branch target advisor over
the unguarded pandas average efficiency. In the middle branch the
average is finite, because an infinite average takes the first branch
and a NaN average the last one, so reading its rational part there is
exact. -/
def predict_production_targets (rows : List ShiftRecord) (mid : String) : TargetResult :=
  let m := machineRows rows mid
  if m.isEmpty || decide (m.length < 3) then
    { optimal_target := none, confidence := 0,
      message := "Insufficient data for prediction" }
  else
    let avg_efficiency := machineAvgEfficiency rows mid
    let avg_output := qmean (m.map (fun r => r.actual_output))
    let max_output := qmax (m.map (fun r => r.actual_output))
    if pGeQ avg_efficiency (19/20) then
      { optimal_target :=
          some (max (qtrunc (max_output * (21/20))) (qtrunc (avg_output * (11/10))))
        confidence := 80
        message := "Machine consistently meets targets, can increase production target." }
    else if pGeQ avg_efficiency (4/5) then
      { optimal_target := some (qtrunc (avg_output / pvalToQ avg_efficiency))
        confidence := 70
        message := "Machine performs well, maintain current targets." }
    else
      { optimal_target := some (qtrunc (avg_output * (11/10)))
        confidence := 60
        message := "Machine struggles to meet targets, consider adjustment." }

/-- Spec-side reading of the risk scorer, claim C1: count of the
machine records with positive downtime. -/
def specDowntimeCount (rows : List ShiftRecord) (mid : String) : ℕ :=
  ((machineRows rows mid).filter (fun r => decide (0 < r.downtime_minutes))).length

/-- Spec-side reading, claim C1: whether any of the last 5
chronologically-latest records of the machine has positive downtime. -/
def specRecentDowntime (rows : List ShiftRecord) (mid : String) : Bool :=
  let s := sortByTime (machineRows rows mid)
  (s.drop (s.length - 5)).any (fun r => decide (0 < r.downtime_minutes))

/-- Spec-side reading, claim C1: total actual over total target of the
machine history, taken as 1 when the target sum is 0. -/
def specProductionEfficiency (rows : List ShiftRecord) (mid : String) : ℚ :=
  let m := machineRows rows mid
  if (m.map (fun r => r.target_output)).sum = 0 then 1
  else (m.map (fun r => r.actual_output)).sum / (m.map (fun r => r.target_output)).sum

/-- Spec-side reading, claim C1: total defects over total actual of the
machine history, taken as 0 when the actual sum is 0. -/
def specAggDefectRate (rows : List ShiftRecord) (mid : String) : ℚ :=
  let m := machineRows rows mid
  if (m.map (fun r => r.actual_output)).sum = 0 then 0
  else (m.map (fun r => r.defects)).sum / (m.map (fun r => r.actual_output)).sum

/-- Spec-side reading of the whole risk score of claim C1,
parameterised by the integer conversion applied to the two rational
contributions, so that the rounding claimed by the spec and the
truncation performed by the code can be compared. -/
def specRiskScoreWith (rnd : ℚ → ℤ) (rows : List ShiftRecord) (mid : String) : ℤ :=
  clampZ 0 100
    (min (10 * (specDowntimeCount rows mid : ℤ)) 30
      + (if specRecentDowntime rows mid then 20 else 0)
      + clampZ 0 40 (rnd ((1 - specProductionEfficiency rows mid) * 100))
      + min (rnd (specAggDefectRate rows mid * 100)) 10)

/-- Claim C1 exactly as stated: with rounding to nearest. -/
def specRiskScoreRound (rows : List ShiftRecord) (mid : String) : ℤ :=
  specRiskScoreWith round rows mid

/-- Claim C1 amended: with truncation toward zero, as int() performs. -/
def specRiskScoreTrunc (rows : List ShiftRecord) (mid : String) : ℤ :=
  specRiskScoreWith qtrunc rows mid

/-- Claim C4 exactly as stated, first branch: the optimal target as
max of the two rounded-to-nearest expressions. -/
def specOptimalTargetRound (rows : List ShiftRecord) (mid : String) : ℤ :=
  let m := machineRows rows mid
  max (round (qmax (m.map (fun r => r.actual_output)) * (21/20)))
    (round (qmean (m.map (fun r => r.actual_output)) * (11/10)))

/-- Claim C4 amended: the three-branch target advisor with truncation
toward zero in place of rounding, over the plain mean of the
per-record efficiency ratios. -/
def specTargetAdviceTrunc (rows : List ShiftRecord) (mid : String) : TargetResult :=
  let m := machineRows rows mid
  if m.length < 3 then
    { optimal_target := none, confidence := 0,
      message := "Insufficient data for prediction" }
  else
    let avgEff := qmean (m.map (fun r => r.actual_output / r.target_output))
    let avgOut := qmean (m.map (fun r => r.actual_output))
    let maxOut := qmax (m.map (fun r => r.actual_output))
    if 19/20 ≤ avgEff then
      { optimal_target :=
          some (max (qtrunc (maxOut * (21/20))) (qtrunc (avgOut * (11/10))))
        confidence := 80
        message := "Machine consistently meets targets, can increase production target." }
    else if 4/5 ≤ avgEff then
      { optimal_target := some (qtrunc (avgOut / avgEff))
        confidence := 70
        message := "Machine performs well, maintain current targets." }
    else
      { optimal_target := some (qtrunc (avgOut * (11/10)))
        confidence := 60
        message := "Machine struggles to meet targets, consider adjustment." }

/-- Spec-side reading of claim C3: the per-machine average efficiency
with every zero-denominator ratio floored to 0 before the mean. -/
def specFlooredAvgEfficiency (rows : List ShiftRecord) (mid : String) : ℚ :=
  qmean ((machineRows rows mid).map
    (fun r => if r.target_output = 0 then 0 else r.actual_output / r.target_output))

/-- Spec-side reading of claim C3: the per-machine average defect rate
with every zero-denominator ratio floored to 0 before the mean. -/
def specFlooredAvgDefectRate (rows : List ShiftRecord) (mid : String) : ℚ :=
  qmean ((machineRows rows mid).map
    (fun r => if r.actual_output = 0 then 0 else r.defects / r.actual_output))

/-- Build a shift record from the fields the analytics read. -/
def mkRec (mid : String) (t a d dm : ℚ) (dt : ℕ) : ShiftRecord :=
  { machine_id := mid, date := "2024-01-01", shift := "Morning",
    target_output := t, actual_output := a, cumulative_output := a,
    defects := d, downtime_minutes := dm, dateTime := dt }

/-- Counterexample input for claim C1: one machine, one record with
target 8 and actual 5, so the efficiency contribution is exactly 37.5
points before integer conversion. -/
def rowsC1 : List ShiftRecord := [mkRec "M1" 8 5 0 0 0]

/-- Counterexample input for claim C3: one record of the machine has
target 0 with positive actual output, making the unfloored average
efficiency infinite. -/
def rowsC3 : List ShiftRecord :=
  [mkRec "M1" 0 5 0 0 0, mkRec "M1" 10 5 0 0 1, mkRec "M1" 10 10 0 0 2]

/-- Counterexample input for claim C4: three records with target and
actual both 105, so avg times 1.1 is exactly 115.5. -/
def rowsC4 : List ShiftRecord :=
  [mkRec "M1" 105 105 0 0 0, mkRec "M1" 105 105 0 0 1, mkRec "M1" 105 105 0 0 2]

/-- The three-record history of the worked spec example for the Target
Advisor: actual = target = 100 each time. -/
def rows100 : List ShiftRecord :=
  [mkRec "M1" 100 100 0 0 0, mkRec "M1" 100 100 0 0 1, mkRec "M1" 100 100 0 0 2]

example : qtrunc (75 / 2) = 37 := by with_unfolding_all decide
example : qtrunc (-(75 / 2)) = -37 := by with_unfolding_all decide
example : isortBy (fun a b => decide (a ≤ b)) ["b", "a", "c"] = ["a", "b", "c"] := by
  with_unfolding_all decide
example : pdMean [PVal.posInf, PVal.finite 1, PVal.nan] = PVal.posInf := by
  with_unfolding_all decide
example : (predict_downtime rowsC1 "M1" ⟨0⟩).1.1 = 37 := by with_unfolding_all decide
example : specRiskScoreRound rowsC1 "M1" = 38 := by with_unfolding_all decide
example : specRiskScoreTrunc rowsC1 "M1" = 37 := by with_unfolding_all decide
example : (predict_production_targets rowsC4 "M1").optimal_target = some 115 := by
  with_unfolding_all decide
example : specOptimalTargetRound rowsC4 "M1" = 116 := by with_unfolding_all decide
example : machineAvgEfficiency rowsC3 "M1" = PVal.posInf := by with_unfolding_all decide
example : specFlooredAvgEfficiency rowsC3 "M1" = 1/2 := by with_unfolding_all decide
example : predict_production_targets rows100 "M1" =
    { optimal_target := some 110, confidence := 80,
      message := "Machine consistently meets targets, can increase production target." } := by
  with_unfolding_all decide

/-- Concrete record for the claim C2 witness: 50 downtime minutes
against a machine average of 50/3, with output also far below target
so that rule (d) holds as well. -/
def recW2 : ShiftRecord := mkRec "M1" 100 10 0 50 0

/-- Concrete table for the claim C2 witness. -/
def rowsW2 : List ShiftRecord :=
  [recW2, mkRec "M1" 100 90 0 0 1, mkRec "M1" 100 95 0 0 2]

/-- Concrete table for the claim C8 witness: the required columns are
present but there are no rows. -/
def tblC8 : Table := { cols := requiredCols, rows := [] }

/-- The feature rows that detect_anomalies works over: the output of
the Feature Deriver, the empty list when it signalled not enough
data. -/
def featureDF (df : Table) : List FeatureRow :=
  (prepare_anomaly_features df).getD []

/-- Concrete table for the claim C9 witness: two machines with five
records each, so both reach the outlier-detection stage. -/
def tblC9 : Table :=
  { cols := requiredCols
    rows :=
      [mkRec "A" 10 9 0 0 0, mkRec "A" 10 8 1 5 1, mkRec "A" 10 10 0 0 2,
       mkRec "A" 10 7 2 10 3, mkRec "A" 10 9 0 0 4,
       mkRec "B" 20 19 0 0 5, mkRec "B" 20 18 1 0 6, mkRec "B" 20 20 0 0 7,
       mkRec "B" 20 5 4 30 8, mkRec "B" 20 19 0 0 9] }

/-- Concrete table for the claim C1 and C6 witnesses: one machine,
two records, one with downtime, every field non-negative. -/
def rowsW1 : List ShiftRecord :=
  [mkRec "M1" 10 9 1 5 0, mkRec "M1" 10 8 0 0 1]

/-- Concrete table for the claim C3 witness: every record of the
machine has nonzero target and actual output. -/
def rowsW3 : List ShiftRecord :=
  [mkRec "M1" 10 5 1 0 0, mkRec "M1" 10 8 2 0 1]

theorem insertLe_perm (le : α → α → Bool) (x : α) (l : List α) :
    List.Perm (insertLe le x l) (x :: l) := by
  induction l with
  | nil => exact List.Perm.refl _
  | cons y ys ih =>
      simp only [insertLe]
      split
      · exact List.Perm.refl _
      · exact List.Perm.trans (List.Perm.cons y ih) (List.Perm.swap x y ys)

theorem isortBy_perm (le : α → α → Bool) (l : List α) :
    List.Perm (isortBy le l) l := by
  induction l with
  | nil => exact List.Perm.refl _
  | cons x xs ih =>
      exact List.Perm.trans (insertLe_perm le x (isortBy le xs)) (List.Perm.cons x ih)

theorem sortByTime_perm (rows : List ShiftRecord) :
    List.Perm (sortByTime rows) rows :=
  isortBy_perm _ rows

theorem sortByTime_filter_length (rows : List ShiftRecord) (p : ShiftRecord → Bool) :
    ((sortByTime rows).filter p).length = (rows.filter p).length := by
  rw [← List.countP_eq_length_filter, ← List.countP_eq_length_filter]
  exact (sortByTime_perm rows).countP_eq p

theorem sortByTime_map_sum (rows : List ShiftRecord) (f : ShiftRecord → ℚ) :
    ((sortByTime rows).map f).sum = (rows.map f).sum :=
  ((sortByTime_perm rows).map f).sum_eq

theorem qtrunc_nonneg {q : ℚ} (h : 0 ≤ q) : 0 ≤ qtrunc q := by
  unfold qtrunc
  exact Int.tdiv_nonneg (Rat.num_nonneg.mpr h) (by positivity)

theorem fillnaReplaceInf_finite (x : PVal) : ∃ q, fillnaReplaceInf x = PVal.finite q := by
  cases x <;> exact ⟨_, rfl⟩

theorem pdDiv_den_zero (a : ℚ) (h : ∀ q, pdDiv a 0 ≠ PVal.finite q) :
    fillnaReplaceInf (pdDiv a 0) = PVal.finite 0 := by
  cases hx : pdDiv a 0 with
  | finite q => exact absurd hx (h q)
  | posInf => rfl
  | negInf => rfl
  | nan => rfl

theorem pdDiv_zero_not_finite (a : ℚ) (q : ℚ) : pdDiv a 0 ≠ PVal.finite q := by
  unfold pdDiv
  simp only [if_pos rfl]
  by_cases h : a = 0
  · simp [h]
  · by_cases h2 : 0 < a
    · simp [h, h2]
    · simp [h, h2]

theorem pdSum_finite (qs : List ℚ) : pdSum (qs.map PVal.finite) = PVal.finite qs.sum := by
  induction qs with
  | nil => rfl
  | cons q qs ih => simp [pdSum, ih, pdAdd]

theorem pdMean_finite (qs : List ℚ) (h : qs ≠ []) :
    pdMean (qs.map PVal.finite) = PVal.finite (qs.sum / (qs.length : ℚ)) := by
  unfold pdMean
  have hfil : (qs.map PVal.finite).filter (fun v => v != PVal.nan) = qs.map PVal.finite := by
    rw [List.filter_eq_self]
    intro a ha
    rcases List.mem_map.mp ha with ⟨q, _, rfl⟩
    simp
  have hne : (qs.map PVal.finite).isEmpty = false := by
    cases qs with
    | nil => exact absurd rfl h
    | cons q qs => rfl
  simp only [hfil, hne, Bool.false_eq_true, if_false, pdSum_finite, pdDivNat,
    List.length_map]

/-- C2: determine_anomaly_reason evaluates its five rules in fixed
order and rule (a) wins whenever its condition (downtime above twice
the machine average and above 10 minutes) holds, regardless of the
other conditions. -/
theorem attribution_rule_a_precedence (record : ShiftRecord) (rows : List ShiftRecord)
    (h1 : qGtP record.downtime_minutes
      (pdScale 2 (machineAvgDowntime rows record.machine_id)) = true)
    (h2 : (10 : ℚ) < record.downtime_minutes) :
    determine_anomaly_reason record rows =
      AnomalyReason.unusualDowntime record.downtime_minutes
        (machineAvgDowntime rows record.machine_id) := by
  simp [determine_anomaly_reason, h1, h2]

/-- Witness for C2: a concrete record with 50 downtime minutes against
an average of 50/3, whose output 10 is also far below its target 100,
so rule (d) holds as well; the result is still the rule (a) message. -/
theorem attribution_rule_a_precedence_witness :
    qGtP recW2.downtime_minutes
      (pdScale 2 (machineAvgDowntime rowsW2 recW2.machine_id)) = true ∧
    (10 : ℚ) < recW2.downtime_minutes ∧
    (recW2.actual_output < recW2.target_output * (3/5) ∧ 0 < recW2.target_output) ∧
    determine_anomaly_reason recW2 rowsW2 =
      AnomalyReason.unusualDowntime recW2.downtime_minutes
        (machineAvgDowntime rowsW2 recW2.machine_id) :=
  ⟨by with_unfolding_all decide, by with_unfolding_all decide,
   ⟨by with_unfolding_all decide, by with_unfolding_all decide⟩,
   attribution_rule_a_precedence recW2 rowsW2 (by with_unfolding_all decide)
     (by with_unfolding_all decide)⟩

/-- C5: with the generator state explicit, every analytic is a pure
function of the table, the machine id and that state, so two calls on
the unchanged table from the same seed state return identical output,
anomaly confidences and the unknown-machine fallback included. -/
theorem analytics_idempotent
    (fitPredict : List (ℚ × ℚ × ℚ) → Except String (List Bool))
    (df : Table) (mid : String) (rng : RNG) :
    detect_anomalies fitPredict df rng = detect_anomalies fitPredict df rng ∧
    predict_downtime df.rows mid rng = predict_downtime df.rows mid rng ∧
    predict_production_targets df.rows mid = predict_production_targets df.rows mid :=
  ⟨rfl, rfl, rfl⟩

/-- C7: every derived ratio of the Feature Deriver is a finite value,
and a zero denominator yields exactly 0. -/
theorem feature_ratios_finite (mid : String) (idx : ℕ) (r : ShiftRecord) :
    ((∃ q, (mkFeatureRow mid idx r).efficiency = PVal.finite q) ∧
      (r.target_output = 0 → (mkFeatureRow mid idx r).efficiency = PVal.finite 0)) ∧
    ((∃ q, (mkFeatureRow mid idx r).defect_rate = PVal.finite q) ∧
      (r.actual_output = 0 → (mkFeatureRow mid idx r).defect_rate = PVal.finite 0)) ∧
    ((∃ q, (mkFeatureRow mid idx r).downtime_per_unit = PVal.finite q) ∧
      (r.actual_output = 0 → (mkFeatureRow mid idx r).downtime_per_unit = PVal.finite 0)) := by
  refine ⟨⟨fillnaReplaceInf_finite _, fun h => ?_⟩,
    ⟨fillnaReplaceInf_finite _, fun h => ?_⟩,
    ⟨fillnaReplaceInf_finite _, fun h => ?_⟩⟩ <;>
  · simp only [mkFeatureRow, h]
    exact pdDiv_den_zero _ (pdDiv_zero_not_finite _)

/-- Witness for C7: a record with target 0 and actual 0 gets all three
ratios floored to exactly 0. -/
theorem feature_ratios_finite_witness :
    (mkRec "M1" 0 0 0 5 0).target_output = 0 ∧
    (mkRec "M1" 0 0 0 5 0).actual_output = 0 ∧
    (mkFeatureRow "M1" 0 (mkRec "M1" 0 0 0 5 0)).efficiency = PVal.finite 0 ∧
    (mkFeatureRow "M1" 0 (mkRec "M1" 0 0 0 5 0)).defect_rate = PVal.finite 0 ∧
    (mkFeatureRow "M1" 0 (mkRec "M1" 0 0 0 5 0)).downtime_per_unit = PVal.finite 0 :=
  ⟨rfl, rfl,
   (feature_ratios_finite "M1" 0 (mkRec "M1" 0 0 0 5 0)).1.2 rfl,
   (feature_ratios_finite "M1" 0 (mkRec "M1" 0 0 0 5 0)).2.1.2 rfl,
   (feature_ratios_finite "M1" 0 (mkRec "M1" 0 0 0 5 0)).2.2.2 rfl⟩

/-- C8: an empty table, one with fewer than 5 rows, or one missing a
required numeric column makes the Feature Deriver signal not enough
data (none) and detect_anomalies return the empty list, with the
generator untouched and no failure raised. -/
theorem insufficient_data_empty_result (df : Table)
    (h : df.rows = [] ∨ df.rows.length < 5 ∨ hasRequiredCols df = false) :
    prepare_anomaly_features df = none ∧
    ∀ (fitPredict : List (ℚ × ℚ × ℚ) → Except String (List Bool)) (rng : RNG),
      detect_anomalies fitPredict df rng = ([], rng) := by
  have hp : prepare_anomaly_features df = none := by
    unfold prepare_anomaly_features
    rcases h with h | h | h
    · simp [h]
    · simp [h]
    · by_cases h5 : (df.rows.isEmpty || decide (df.rows.length < 5)) = true
      · simp [h5]
      · simp [h5, h]
  exact ⟨hp, fun fitPredict rng => by simp [detect_anomalies, hp]⟩

/-- Witness for C8: a table with all required columns but no rows. -/
theorem insufficient_data_empty_result_witness :
    (tblC8.rows = [] ∨ tblC8.rows.length < 5 ∨ hasRequiredCols tblC8 = false) ∧
    prepare_anomaly_features tblC8 = none ∧
    detect_anomalies (fun _ => Except.error "e") tblC8 ⟨0⟩ = ([], ⟨0⟩) :=
  ⟨Or.inl rfl, (insufficient_data_empty_result tblC8 (Or.inl rfl)).1,
   (insufficient_data_empty_result tblC8 (Or.inl rfl)).2 (fun _ => Except.error "e") ⟨0⟩⟩

/-- C10: predict_production_targets always returns a confidence in
{0, 60, 70, 80}; the optimal target is none exactly when the machine
has fewer than 3 matching records, which is also exactly the
confidence-0 case; otherwise it is an integer. -/
theorem target_confidence_invariant (rows : List ShiftRecord) (mid : String) :
    ((predict_production_targets rows mid).confidence = 0 ∨
     (predict_production_targets rows mid).confidence = 60 ∨
     (predict_production_targets rows mid).confidence = 70 ∨
     (predict_production_targets rows mid).confidence = 80) ∧
    ((predict_production_targets rows mid).optimal_target = none ↔
      (machineRows rows mid).length < 3) ∧
    ((predict_production_targets rows mid).confidence = 0 ↔
      (machineRows rows mid).length < 3) := by
  by_cases h3 : (machineRows rows mid).length < 3
  · have hcond : ((machineRows rows mid).isEmpty
        || decide ((machineRows rows mid).length < 3)) = true := by simp [h3]
    simp [predict_production_targets, hcond, h3]
  · have he : (machineRows rows mid).isEmpty = false := by
      cases hm : machineRows rows mid with
      | nil => rw [hm] at h3; simp at h3
      | cons a l => rfl
    have hcond : ((machineRows rows mid).isEmpty
        || decide ((machineRows rows mid).length < 3)) = false := by simp [he, h3]
    have hne : machineRows rows mid ≠ [] := by
      intro hx
      rw [hx] at h3
      simp at h3
    by_cases hb1 : pGeQ (machineAvgEfficiency rows mid) (19/20) = true
    · simp [predict_production_targets, hcond, hb1, h3, hne]
    · by_cases hb2 : pGeQ (machineAvgEfficiency rows mid) (4/5) = true
      · simp [predict_production_targets, hcond, hb1, hb2, h3, hne]
      · simp [predict_production_targets, hcond, hb1, hb2, h3, hne]

/-- Counterexample for C1: on a single record with target 8 and actual
5 the efficiency contribution is 37.5 points; the code truncates to 37
while the claimed rounding gives 38. -/
theorem risk_score_round_counterexample :
    (predict_downtime rowsC1 "M1" ⟨0⟩).1.1 = 37 ∧
    specRiskScoreRound rowsC1 "M1" = 38 ∧
    (predict_downtime rowsC1 "M1" ⟨0⟩).1.1 ≠ specRiskScoreRound rowsC1 "M1" := by
  refine ⟨?_, ?_, ?_⟩ <;> with_unfolding_all decide

/-- Counterexample for C3: with one record of target 0 and actual 5,
the average efficiency the code computes is positive infinity, not the
finite floored mean 1/2 the claim asserts. -/
theorem unfloored_average_counterexample :
    machineAvgEfficiency rowsC3 "M1" = PVal.posInf ∧
    specFlooredAvgEfficiency rowsC3 "M1" = 1/2 ∧
    machineAvgEfficiency rowsC3 "M1"
      ≠ PVal.finite (specFlooredAvgEfficiency rowsC3 "M1") := by
  refine ⟨?_, ?_, ?_⟩ <;> with_unfolding_all decide

/-- Counterexample for C4: on three records with target and actual 105
the code (confidence-80 branch) truncates 115.5 to 115, while the
claimed rounding gives 116. -/
theorem target_round_counterexample :
    (predict_production_targets rowsC4 "M1").confidence = 80 ∧
    (predict_production_targets rowsC4 "M1").optimal_target = some 115 ∧
    specOptimalTargetRound rowsC4 "M1" = 116 ∧
    (predict_production_targets rowsC4 "M1").optimal_target
      ≠ some (specOptimalTargetRound rowsC4 "M1") := by
  refine ⟨?_, ?_, ?_, ?_⟩ <;> with_unfolding_all decide

theorem perMachine_error
    (fitPredict : List (ℚ × ℚ × ℚ) → Except String (List Bool))
    (fdf : List FeatureRow) (rows : List ShiftRecord) (mid : String) (rng : RNG)
    (e : String) (h : fitPredict (matrixFor fdf mid) = Except.error e) :
    perMachine fitPredict fdf rows mid rng = ([], rng) := by
  simp only [perMachine]
  split
  · rfl
  · rw [h]

theorem runMachines_skip
    (fitPredict : List (ℚ × ℚ × ℚ) → Except String (List Bool))
    (fdf : List FeatureRow) (rows : List ShiftRecord) (m0 : String)
    (hm : ∀ rng, perMachine fitPredict fdf rows m0 rng = ([], rng)) :
    ∀ (ids : List String) (rng : RNG),
      runMachines fitPredict fdf rows ids rng
        = runMachines fitPredict fdf rows (ids.filter (fun i => i != m0)) rng := by
  intro ids
  induction ids with
  | nil => intro rng; rfl
  | cons id rest ih =>
      intro rng
      by_cases hid : id = m0
      · have hf : (id :: rest).filter (fun i => i != m0)
            = rest.filter (fun i => i != m0) := by
          simp [List.filter_cons, hid]
        have hpm : perMachine fitPredict fdf rows id rng = ([], rng) := by
          rw [hid]
          exact hm rng
        rw [hf]
        simp only [runMachines, hpm, List.nil_append, Prod.mk.eta]
        exact ih rng
      · have hf : (id :: rest).filter (fun i => i != m0)
            = id :: rest.filter (fun i => i != m0) := by
          simp [List.filter_cons, hid]
        rw [hf]
        simp only [runMachines]
        rw [ih]

/-- C9: a fit error of the external scaler-plus-detector pipeline on
one machine group does not propagate out of detect_anomalies: the run
equals the run over all other machine groups, the failing machine
contributing nothing. -/
theorem fit_failure_isolated
    (fitPredict : List (ℚ × ℚ × ℚ) → Except String (List Bool))
    (df : Table) (m0 : String) (rng : RNG) (e : String)
    (h : fitPredict (matrixFor (featureDF df) m0) = Except.error e) :
    detect_anomalies fitPredict df rng
      = runMachines fitPredict (featureDF df) df.rows
          ((dedupFirst ((featureDF df).map (fun fr => fr.machine_id))).filter
            (fun i => i != m0)) rng := by
  have hskip : ∀ rng, perMachine fitPredict (featureDF df) df.rows m0 rng = ([], rng) :=
    fun rng => perMachine_error fitPredict (featureDF df) df.rows m0 rng e h
  cases hp : prepare_anomaly_features df with
  | none =>
      have hfd : featureDF df = [] := by simp [featureDF, hp]
      simp [detect_anomalies, hp, hfd, dedupFirst, runMachines]
  | some fdf =>
      have hfd : featureDF df = fdf := by simp [featureDF, hp]
      by_cases hemp : fdf.isEmpty = true
      · have hnil : fdf = [] := by
          cases fdf with
          | nil => rfl
          | cons a l => simp at hemp
        simp [detect_anomalies, hp, hfd, hnil, dedupFirst, runMachines]
      · rw [hfd] at hskip
        simp only [detect_anomalies, hp, hfd, hemp, Bool.false_eq_true, if_false]
        exact runMachines_skip fitPredict fdf df.rows m0 hskip _ rng

/-- Witness for C9: an oracle that always fails, applied to a table
with two five-record machines; detect_anomalies still equals the run
over the remaining machine ids. -/
theorem fit_failure_isolated_witness :
    ((fun _ => Except.error "fit failed") (matrixFor (featureDF tblC9) "A")
        = (Except.error "fit failed" : Except String (List Bool))) ∧
    detect_anomalies (fun _ => Except.error "fit failed") tblC9 ⟨0⟩
      = runMachines (fun _ => Except.error "fit failed") (featureDF tblC9) tblC9.rows
          ((dedupFirst ((featureDF tblC9).map (fun fr => fr.machine_id))).filter
            (fun i => i != "A")) ⟨0⟩ :=
  ⟨rfl, fit_failure_isolated (fun _ => Except.error "fit failed") tblC9 "A" ⟨0⟩
    "fit failed" rfl⟩

theorem machineAvgEfficiency_finite (rows : List ShiftRecord) (mid : String)
    (hne : machineRows rows mid ≠ [])
    (h : ∀ r ∈ machineRows rows mid, r.target_output ≠ 0) :
    machineAvgEfficiency rows mid
      = PVal.finite (qmean ((machineRows rows mid).map
          (fun r => r.actual_output / r.target_output))) := by
  have h2 : (machineRows rows mid).map (fun r => pdDiv r.actual_output r.target_output)
      = ((machineRows rows mid).map
          (fun r => r.actual_output / r.target_output)).map PVal.finite := by
    rw [List.map_map]
    exact List.map_congr_left (fun r hr => by
      simp only [Function.comp_apply]
      unfold pdDiv
      rw [if_neg (h r hr)])
  have h4 : (machineRows rows mid).map (fun r => r.actual_output / r.target_output) ≠ [] := by
    intro hx
    exact hne (List.map_eq_nil_iff.mp hx)
  rw [machineAvgEfficiency, h2, pdMean_finite _ h4, qmean]

theorem machineAvgDefectRate_finite (rows : List ShiftRecord) (mid : String)
    (hne : machineRows rows mid ≠ [])
    (h : ∀ r ∈ machineRows rows mid, r.actual_output ≠ 0) :
    machineAvgDefectRate rows mid
      = PVal.finite (qmean ((machineRows rows mid).map
          (fun r => r.defects / r.actual_output))) := by
  have h2 : (machineRows rows mid).map (fun r => pdDiv r.defects r.actual_output)
      = ((machineRows rows mid).map
          (fun r => r.defects / r.actual_output)).map PVal.finite := by
    rw [List.map_map]
    exact List.map_congr_left (fun r hr => by
      simp only [Function.comp_apply]
      unfold pdDiv
      rw [if_neg (h r hr)])
  have h4 : (machineRows rows mid).map (fun r => r.defects / r.actual_output) ≠ [] := by
    intro hx
    exact hne (List.map_eq_nil_iff.mp hx)
  rw [machineAvgDefectRate, h2, pdMean_finite _ h4, qmean]

/-- C3 corrected: the averages of the attribution procedure and the
Target Advisor do not floor zero-denominator ratios; but whenever
every record of the machine has a nonzero denominator, they equal the
finite floored means the claim describes. -/
theorem floored_averages_amended (rows : List ShiftRecord) (mid : String)
    (hne : machineRows rows mid ≠ []) :
    ((∀ r ∈ machineRows rows mid, r.target_output ≠ 0) →
      machineAvgEfficiency rows mid
        = PVal.finite (specFlooredAvgEfficiency rows mid)) ∧
    ((∀ r ∈ machineRows rows mid, r.actual_output ≠ 0) →
      machineAvgDefectRate rows mid
        = PVal.finite (specFlooredAvgDefectRate rows mid)) := by
  constructor
  · intro h
    rw [machineAvgEfficiency_finite rows mid hne h, specFlooredAvgEfficiency]
    have h3 : (machineRows rows mid).map
        (fun r => if r.target_output = 0 then 0 else r.actual_output / r.target_output)
        = (machineRows rows mid).map (fun r => r.actual_output / r.target_output) :=
      List.map_congr_left (fun r hr => by rw [if_neg (h r hr)])
    rw [h3]
  · intro h
    rw [machineAvgDefectRate_finite rows mid hne h, specFlooredAvgDefectRate]
    have h3 : (machineRows rows mid).map
        (fun r => if r.actual_output = 0 then 0 else r.defects / r.actual_output)
        = (machineRows rows mid).map (fun r => r.defects / r.actual_output) :=
      List.map_congr_left (fun r hr => by rw [if_neg (h r hr)])
    rw [h3]

/-- Witness for C3 amended: a machine whose records all have nonzero
denominators; both averages equal the finite floored means. -/
theorem floored_averages_amended_witness :
    machineRows rowsW3 "M1" ≠ [] ∧
    machineAvgEfficiency rowsW3 "M1"
      = PVal.finite (specFlooredAvgEfficiency rowsW3 "M1") ∧
    machineAvgDefectRate rowsW3 "M1"
      = PVal.finite (specFlooredAvgDefectRate rowsW3 "M1") :=
  ⟨by with_unfolding_all decide,
   (floored_averages_amended rowsW3 "M1" (by with_unfolding_all decide)).1
     (by with_unfolding_all decide),
   (floored_averages_amended rowsW3 "M1" (by with_unfolding_all decide)).2
     (by with_unfolding_all decide)⟩

/-- C4 corrected: for a machine with at least 3 records whose targets
are all nonzero, predict_production_targets follows the three-branch
rule of the claim with int() truncation toward zero in place of the
claimed rounding to nearest; in particular the all-100 history still
yields optimal target 110 with confidence 80. -/
theorem target_advisor_amended (rows : List ShiftRecord) (mid : String)
    (h3 : 3 ≤ (machineRows rows mid).length)
    (ht : ∀ r ∈ machineRows rows mid, r.target_output ≠ 0) :
    predict_production_targets rows mid = specTargetAdviceTrunc rows mid := by
  have hne : machineRows rows mid ≠ [] := by
    intro hx
    rw [hx] at h3
    simp at h3
  have he : (machineRows rows mid).isEmpty = false := by
    cases hm : machineRows rows mid with
    | nil => exact absurd hm hne
    | cons a l => rfl
  have hlt : ¬ (machineRows rows mid).length < 3 := by omega
  have hcond : ((machineRows rows mid).isEmpty
      || decide ((machineRows rows mid).length < 3)) = false := by
    simp [he, hlt]
  have havg := machineAvgEfficiency_finite rows mid hne ht
  by_cases hb1 : (19 : ℚ)/20
      ≤ qmean ((machineRows rows mid).map (fun r => r.actual_output / r.target_output))
  · simp [predict_production_targets, specTargetAdviceTrunc, hcond, hlt, havg, pGeQ, hb1, hne]
  · by_cases hb2 : (4 : ℚ)/5
        ≤ qmean ((machineRows rows mid).map (fun r => r.actual_output / r.target_output))
    · simp [predict_production_targets, specTargetAdviceTrunc, hcond, hlt, havg, pGeQ,
        pvalToQ, hb1, hb2, hne]
    · simp [predict_production_targets, specTargetAdviceTrunc, hcond, hlt, havg, pGeQ,
        hb1, hb2, hne]

/-- Witness for C4 amended: the three-record all-100 history takes the
first branch and yields optimal target 110 with confidence 80. -/
theorem target_advisor_amended_witness :
    3 ≤ (machineRows rows100 "M1").length ∧
    predict_production_targets rows100 "M1"
      = { optimal_target := some 110, confidence := 80,
          message := "Machine consistently meets targets, can increase production target." } :=
  ⟨by with_unfolding_all decide,
   (target_advisor_amended rows100 "M1" (by with_unfolding_all decide)
      (by with_unfolding_all decide)).trans (by with_unfolding_all decide)⟩

theorem predict_downtime_known (rows : List ShiftRecord) (mid : String) (rng : RNG)
    (hne : machineRows rows mid ≠ [])
    (hw : ∀ r ∈ machineRows rows mid,
      0 ≤ r.target_output ∧ 0 ≤ r.actual_output ∧ 0 ≤ r.defects) :
    (predict_downtime rows mid rng).1.1 = specRiskScoreTrunc rows mid := by
  have he : (machineRows rows mid).isEmpty = false := by
    cases hm : machineRows rows mid with
    | nil => exact absurd hm hne
    | cons a l => rfl
  have hSt := sortByTime_map_sum (machineRows rows mid) (fun r => r.target_output)
  have hSa := sortByTime_map_sum (machineRows rows mid) (fun r => r.actual_output)
  have hSd := sortByTime_map_sum (machineRows rows mid) (fun r => r.defects)
  have htnn : 0 ≤ ((machineRows rows mid).map (fun r => r.target_output)).sum :=
    List.sum_nonneg (by
      intro x hx
      rcases List.mem_map.mp hx with ⟨r, hr, rfl⟩
      exact (hw r hr).1)
  have hann : 0 ≤ ((machineRows rows mid).map (fun r => r.actual_output)).sum :=
    List.sum_nonneg (by
      intro x hx
      rcases List.mem_map.mp hx with ⟨r, hr, rfl⟩
      exact (hw r hr).2.1)
  have hdnn : 0 ≤ ((machineRows rows mid).map (fun r => r.defects)).sum :=
    List.sum_nonneg (by
      intro x hx
      rcases List.mem_map.mp hx with ⟨r, hr, rfl⟩
      exact (hw r hr).2.2)
  have hC : (if 0 < ((sortByTime (machineRows rows mid)).map (fun r => r.target_output)).sum
        then ((sortByTime (machineRows rows mid)).map (fun r => r.actual_output)).sum
          / ((sortByTime (machineRows rows mid)).map (fun r => r.target_output)).sum
        else 1) = specProductionEfficiency rows mid := by
    rw [specProductionEfficiency, hSt, hSa]
    by_cases h0 : ((machineRows rows mid).map (fun r => r.target_output)).sum = 0
    · rw [if_neg (by rw [h0]; exact lt_irrefl 0), if_pos h0]
    · rw [if_pos (lt_of_le_of_ne htnn (Ne.symm h0)), if_neg h0]
  have hD : (if 0 < ((sortByTime (machineRows rows mid)).map (fun r => r.actual_output)).sum
        then ((sortByTime (machineRows rows mid)).map (fun r => r.defects)).sum
          / ((sortByTime (machineRows rows mid)).map (fun r => r.actual_output)).sum
        else 0) = specAggDefectRate rows mid := by
    rw [specAggDefectRate, hSa, hSd]
    by_cases h0 : ((machineRows rows mid).map (fun r => r.actual_output)).sum = 0
    · rw [if_neg (by rw [h0]; exact lt_irrefl 0), if_pos h0]
    · rw [if_pos (lt_of_le_of_ne hann (Ne.symm h0)), if_neg h0]
  have hA : ((sortByTime (machineRows rows mid)).filter
        (fun r => decide (0 < r.downtime_minutes))).length
      = specDowntimeCount rows mid := by
    rw [specDowntimeCount]
    exact sortByTime_filter_length _ _
  have hdr : 0 ≤ specAggDefectRate rows mid := by
    simp only [specAggDefectRate]
    split
    · exact le_refl 0
    · exact div_nonneg hdnn hann
  have hB : ((sortByTime (machineRows rows mid)).drop
        ((sortByTime (machineRows rows mid)).length - 5)).any
        (fun r => decide (0 < r.downtime_minutes))
      = specRecentDowntime rows mid := rfl
  simp only [predict_downtime, prepare_machine_features, he, Bool.false_eq_true, if_false]
  rw [hC, hD, hA, hB]
  rw [specRiskScoreTrunc, specRiskScoreWith]
  rw [mul_comm (10 : ℤ) ((specDowntimeCount rows mid : ℕ) : ℤ)]
  have hS : 0 ≤ min (((specDowntimeCount rows mid : ℕ) : ℤ) * 10) 30
      + (if specRecentDowntime rows mid then (20 : ℤ) else 0)
      + max 0 (min 40 (qtrunc ((1 - specProductionEfficiency rows mid) * 100)))
      + min (qtrunc (specAggDefectRate rows mid * 100)) 10 := by
    have h1 : (0 : ℤ) ≤ min (((specDowntimeCount rows mid : ℕ) : ℤ) * 10) 30 :=
      le_min (by positivity) (by norm_num)
    have h2 : (0 : ℤ) ≤ (if specRecentDowntime rows mid then (20 : ℤ) else 0) := by
      split <;> norm_num
    have h3 : (0 : ℤ) ≤ max 0 (min 40 (qtrunc ((1 - specProductionEfficiency rows mid) * 100))) :=
      le_max_left 0 _
    have h4 : (0 : ℤ) ≤ min (qtrunc (specAggDefectRate rows mid * 100)) 10 :=
      le_min (qtrunc_nonneg (mul_nonneg hdr (by norm_num))) (by norm_num)
    exact add_nonneg (add_nonneg (add_nonneg h1 h2) h3) h4
  rw [clampZ, clampZ]
  rw [min_comm _ (100 : ℤ)]
  rw [max_eq_right (le_min (by norm_num) hS)]

/-- C1 corrected: for a machine with at least one record and
non-negative fields, the risk score equals the four claimed
contributions summed and clamped to [0,100], with int() truncation
toward zero in place of the rounding to nearest the claim states. -/
theorem risk_score_formula_amended (rows : List ShiftRecord) (mid : String) (rng : RNG)
    (hne : machineRows rows mid ≠ [])
    (hw : ∀ r ∈ machineRows rows mid,
      0 ≤ r.target_output ∧ 0 ≤ r.actual_output ∧ 0 ≤ r.defects) :
    (predict_downtime rows mid rng).1.1 = specRiskScoreTrunc rows mid :=
  predict_downtime_known rows mid rng hne hw

/-- Witness for C1 amended: a two-record machine whose contributions
are 10, 20, 15 and 5 points, scoring 50. -/
theorem risk_score_formula_amended_witness :
    machineRows rowsW1 "M1" ≠ [] ∧
    (∀ r ∈ machineRows rowsW1 "M1",
      0 ≤ r.target_output ∧ 0 ≤ r.actual_output ∧ 0 ≤ r.defects) ∧
    (predict_downtime rowsW1 "M1" ⟨3⟩).1.1 = 50 ∧
    (predict_downtime rowsW1 "M1" ⟨3⟩).1.1 = specRiskScoreTrunc rowsW1 "M1" :=
  ⟨by with_unfolding_all decide, by with_unfolding_all decide,
   by with_unfolding_all decide,
   risk_score_formula_amended rowsW1 "M1" ⟨3⟩ (by with_unfolding_all decide)
     (by with_unfolding_all decide)⟩

theorem predict_downtime_hours (rows : List ShiftRecord) (mid : String) (rng : RNG)
    (hne : machineRows rows mid ≠ []) :
    (predict_downtime rows mid rng).1.2
      = (if 20 < (machineRows rows mid).length then 24
         else if 10 < (machineRows rows mid).length then 12 else 4) := by
  have he : (machineRows rows mid).isEmpty = false := by
    cases hm : machineRows rows mid with
    | nil => exact absurd hm hne
    | cons a l => rfl
  simp only [predict_downtime, prepare_machine_features, he, Bool.false_eq_true, if_false]

/-- C6: the risk scorer returns a score in [0,100] and the exact
history-based horizon for machines with records, and a score in
[10,90] with a horizon from {2,4,8,12,24} for unknown machines. -/
theorem risk_scorer_ranges (rows : List ShiftRecord) (mid : String) (rng : RNG)
    (hw : ∀ r ∈ machineRows rows mid,
      0 ≤ r.target_output ∧ 0 ≤ r.actual_output ∧ 0 ≤ r.defects) :
    (machineRows rows mid ≠ [] →
      0 ≤ (predict_downtime rows mid rng).1.1 ∧
      (predict_downtime rows mid rng).1.1 ≤ 100 ∧
      (predict_downtime rows mid rng).1.2
        = (if 20 < (machineRows rows mid).length then 24
           else if 10 < (machineRows rows mid).length then 12 else 4)) ∧
    (machineRows rows mid = [] →
      10 ≤ (predict_downtime rows mid rng).1.1 ∧
      (predict_downtime rows mid rng).1.1 ≤ 90 ∧
      (predict_downtime rows mid rng).1.2 ∈ [2, 4, 8, 12, 24]) := by
  constructor
  · intro hne
    have hb := predict_downtime_known rows mid rng hne hw
    refine ⟨?_, ?_, predict_downtime_hours rows mid rng hne⟩
    · rw [hb, specRiskScoreTrunc, specRiskScoreWith, clampZ]
      exact le_max_left 0 _
    · rw [hb, specRiskScoreTrunc, specRiskScoreWith, clampZ]
      exact max_le (by norm_num) (min_le_left _ _)
  · intro hmr
    have he : (machineRows rows mid).isEmpty = true := by
      rw [hmr]
      rfl
    refine ⟨?_, ?_, ?_⟩ <;>
      simp only [predict_downtime, prepare_machine_features, he, if_true, randint, randchoice]
    · push_cast
      omega
    · have h81 : rng.state % 81 < 81 := Nat.mod_lt _ (by norm_num)
      have : rng.state % (90 - 10 + 1) = rng.state % 81 := by norm_num
      rw [this]
      push_cast
      omega
    · have h5 : (rngNext rng).state % 5 = 0 ∨ (rngNext rng).state % 5 = 1 ∨
          (rngNext rng).state % 5 = 2 ∨ (rngNext rng).state % 5 = 3 ∨
          (rngNext rng).state % 5 = 4 := by omega
      have hlen : [2, 4, 8, 12, 24].length = 5 := rfl
      rw [hlen]
      rcases h5 with h | h | h | h | h <;> rw [h] <;> decide

/-- Witness for C6: the known-machine case on a two-record machine and
the unknown-machine fallback on an id absent from the table. -/
theorem risk_scorer_ranges_witness :
    machineRows rowsW1 "M1" ≠ [] ∧
    (0 ≤ (predict_downtime rowsW1 "M1" ⟨7⟩).1.1 ∧
      (predict_downtime rowsW1 "M1" ⟨7⟩).1.1 ≤ 100 ∧
      (predict_downtime rowsW1 "M1" ⟨7⟩).1.2
        = (if 20 < (machineRows rowsW1 "M1").length then 24
           else if 10 < (machineRows rowsW1 "M1").length then 12 else 4)) ∧
    machineRows rowsW1 "ZZ" = [] ∧
    (10 ≤ (predict_downtime rowsW1 "ZZ" ⟨7⟩).1.1 ∧
      (predict_downtime rowsW1 "ZZ" ⟨7⟩).1.1 ≤ 90 ∧
      (predict_downtime rowsW1 "ZZ" ⟨7⟩).1.2 ∈ [2, 4, 8, 12, 24]) :=
  ⟨by with_unfolding_all decide,
   (risk_scorer_ranges rowsW1 "M1" ⟨7⟩ (by with_unfolding_all decide)).1
     (by with_unfolding_all decide),
   by with_unfolding_all decide,
   (risk_scorer_ranges rowsW1 "ZZ" ⟨7⟩ (by with_unfolding_all decide)).2
     (by with_unfolding_all decide)⟩
